import Mathlib

/-!
Verification of the Echo Delirium step-sequencer playback engine.

Shallow embedding of the sequencer core found in
`src/components/Sequencer.tsx`, `src/components/PolyTrack.tsx`,
the BassTrack component, and `src/lib/samples.ts`.

Conventions of the embedding:
* JS arrays become `List`; JS `Map` registries keyed by track id become
  association lists `List (String × _)` whose keys are unique (a JS `Map`
  cannot hold a key twice), with `Map.delete` modelled as filtering the
  key out.
* Audio-clock times are exact rationals (`ℚ`); no floating point is
  involved in any property proved here (all constants are dyadic).
* Calls into the Tone.js audio library (`triggerAttack`, `triggerRelease`,
  `player.start/stop`) are recorded as events in an output trace rather
  than performed, in the order the code issues them.
* The `tonal` chord library is an external collaborator: chord lookup is a
  parameter `chordNotes : String → List String` of the Poly model.
-/

namespace EchoDelirium

/-! ## Data model (Sequencer.tsx, interface Track) -/

/-- Track.type field: 'drum' | 'bass' | 'poly'. -/
inductive TrackType
  | drum
  | bass
  | poly
deriving DecidableEq, Repr

/-- Track.effects: filter cutoff, resonance Q, delay send, reverb send. -/
structure Effects where
  filter : ℚ
  resonance : ℚ
  delay : ℚ
  reverb : ℚ
deriving DecidableEq, Repr

/-- The Track record of Sequencer.tsx (fields relevant to the sequencer
core; the UI-only `collapsed` flag and the load-progress display fields are
omitted from this record and modelled separately where a claim needs
them). -/
structure Track where
  id : String
  name : String
  type : TrackType
  pattern : List Bool
  samplePath : Option String
  volume : ℚ
  pan : ℚ
  effects : Effects
  muted : Bool
  soloed : Bool
  gated : Bool
deriving DecidableEq, Repr

/-! ## Solo/mute resolution (Sequencer.tsx, repeat tick handler) -/

/-- The active-track filter executed on every tick:

  if (track.muted) return false;
  const hasSoloedTracks = tracksRef.current.some(t => t.soloed);
  return !hasSoloedTracks || track.soloed;
-/
def activeTracks (tracks : List Track) : List Track :=
  tracks.filter fun track =>
    if track.muted then false
    else
      let hasSoloedTracks := tracks.any fun t => t.soloed
      !hasSoloedTracks || track.soloed

/-- Default effects record used when tracks are created
(`effects: { filter: 20000, resonance: 1, delay: 0, reverb: 0 }`). -/
def defaultEffects : Effects :=
  { filter := 20000, resonance := 1, delay := 0, reverb := 0 }

/-- Concrete track A of the solo-precedence example: muted=false, soloed=false. -/
def trackA : Track :=
  { id := "A", name := "A", type := TrackType.drum, pattern := [],
    samplePath := none, volume := 0, pan := 0, effects := defaultEffects,
    muted := false, soloed := false, gated := false }

/-- Concrete track B of the solo-precedence example: muted=false, soloed=true. -/
def trackB : Track :=
  { id := "B", name := "B", type := TrackType.drum, pattern := [],
    samplePath := none, volume := 0, pan := 0, effects := defaultEffects,
    muted := false, soloed := true, gated := false }

/-- Concrete track C of the solo-precedence example: muted=true, soloed=true. -/
def trackC : Track :=
  { id := "C", name := "C", type := TrackType.drum, pattern := [],
    samplePath := none, volume := 0, pan := 0, effects := defaultEffects,
    muted := true, soloed := true, gated := false }

/-! ## Pattern resize (Sequencer.tsx handleStepAmountChange, BassTrack
handleStepAmountChange) -/

/-- Pattern resize of Sequencer.tsx handleStepAmountChange:

  track.pattern.length > steps
    ? track.pattern.slice(0, steps)
    : [...track.pattern, ...Array(steps - track.pattern.length).fill(false)]
-/
def resizePattern (pattern : List Bool) (steps : Nat) : List Bool :=
  if pattern.length > steps then pattern.take steps
  else pattern ++ List.replicate (steps - pattern.length) false

/-- Sequencer.tsx handleStepAmountChange: maps every track to a copy whose
pattern is resized; all other fields are spread unchanged. -/
def handleStepAmountChange (steps : Nat) (tracks : List Track) : List Track :=
  tracks.map fun track => { track with pattern := resizePattern track.pattern steps }

/-- BassTrack handleStepAmountChange: rows of the two-dimensional pattern,
rebuilt as

  Array(steps).fill(null).map((_, stepIndex) =>
    stepIndex < pattern.length ? [...pattern[stepIndex]]
                               : Array(scaleNotes.length).fill(false))
-/
def bassResizePattern (pattern : List (List Bool)) (steps scaleLen : Nat) :
    List (List Bool) :=
  (List.range steps).map fun stepIndex =>
    if stepIndex < pattern.length then pattern.getD stepIndex []
    else List.replicate scaleLen false

/-! ## Time adjustment shared by BassTrack and PolyTrack playStep -/

/-- The scheduled-time adjustment of playStep:

  const timeOffset = 0.001;
  const adjustedTime = time ? time + timeOffset : undefined;

JS truthiness makes a time of exactly 0 behave like undefined. -/
def adjustTime (time : Option ℚ) : Option ℚ :=
  match time with
  | some t => if t = 0 then none else some (t + 1/1000)
  | none => none

/-! ## PolyTrack playStep (PolyTrack.tsx useImperativeHandle) -/

/-- The PolyTrack parameters read by playStep. -/
structure PolyParams where
  octave : Nat
  chordProgression : List String
deriving DecidableEq, Repr

/-- The mutable refs of PolyTrack read and written by playStep:
synthRef (whether the PolySynth has been created), currentNotesRef, and
patternRef (the component-local pattern, one row of note flags per step). -/
structure PolyState where
  synthExists : Bool
  currentNotes : List String
  pattern : List (List Bool)
deriving DecidableEq, Repr

/-- Synth calls issued by PolyTrack playStep, in issue order. -/
inductive PolyEvent
  | release (notes : List String) (time : Option ℚ)
  | attack (notes : List String) (time : Option ℚ)
deriving DecidableEq, Repr

/-- The full chord playStep computes for a step:

  const chordIndex = Math.floor(step / 4) % params.chordProgression.length;
  const currentChord = params.chordProgression[chordIndex];
  const chordNotes = Chord.get(currentChord).notes.map(note => note + octave);

`chordNotes` is the external `tonal` lookup. Note that this depends only on
the step index and the progression, never on the pattern. -/
def polyChordFor (chordNotes : String → List String) (params : PolyParams)
    (step : Nat) : List String :=
  let chordIndex := (step / 4) % params.chordProgression.length
  let currentChord := params.chordProgression.getD chordIndex ""
  (chordNotes currentChord).map fun note => note ++ toString params.octave

/-- PolyTrack playStep:

  if (!synthRef.current || step >= patternRef.current.length) return;
  ... release currentNotes at adjustedTime if any ...
  const stepPattern = patternRef.current[step];
  if (stepPattern.some(isActive => isActive)) triggerAttack(chordNotes, adjustedTime)

Returns the updated refs and the trace of synth calls. -/
def polyPlayStep (chordNotes : String → List String) (params : PolyParams)
    (st : PolyState) (step : Nat) (time : Option ℚ) :
    PolyState × List PolyEvent :=
  if st.synthExists = false ∨ st.pattern.length ≤ step then (st, [])
  else
    let notes := polyChordFor chordNotes params step
    let adjustedTime := adjustTime time
    let rel : PolyState × List PolyEvent :=
      if st.currentNotes.isEmpty then (st, [])
      else ({ st with currentNotes := [] },
            [PolyEvent.release st.currentNotes adjustedTime])
    let stepPattern := rel.1.pattern.getD step []
    if stepPattern.any id then
      ({ rel.1 with currentNotes := notes },
       rel.2 ++ [PolyEvent.attack notes adjustedTime])
    else (rel.1, rel.2)

/-! ## BassTrack playStep (unnamed BassTrack component, useImperativeHandle) -/

/-- The mutable refs of BassTrack read and written by playStep. -/
structure BassState where
  synthExists : Bool
  currentNote : Option String
  pattern : List (List Bool)
deriving DecidableEq, Repr

/-- MonoSynth calls issued by BassTrack playStep, in issue order
(triggerRelease takes no note: the synth is monophonic). -/
inductive BassEvent
  | release (time : Option ℚ)
  | attack (note : String) (time : Option ℚ)
deriving DecidableEq, Repr

/-- The active-note computation of BassTrack playStep:

  const activeNotes = stepPattern
    .map((isActive, index) => isActive ? scaleNotes[index] : null)
    .filter(Boolean);

An out-of-range scaleNotes[index] is undefined, hence dropped by
filter(Boolean). -/
def bassActiveNotes (scaleNotes : List String) (stepPattern : List Bool) :
    List String :=
  (List.range stepPattern.length).filterMap fun index =>
    if stepPattern.getD index false then scaleNotes.get? index else none

/-- BassTrack playStep:

  if (!synthRef.current || step >= patternRef.current.length) return;
  ... compute activeNotes ...
  if (currentNoteRef.current) triggerRelease(adjustedTime), currentNote = null
  if (activeNotes.length > 0) triggerAttack(activeNotes[0], adjustedTime)

The currentNoteRef truthiness test coincides with isSome here because scale
note names are never the empty string. -/
def bassPlayStep (scaleNotes : List String) (st : BassState) (step : Nat)
    (time : Option ℚ) : BassState × List BassEvent :=
  if st.synthExists = false ∨ st.pattern.length ≤ step then (st, [])
  else
    let stepPattern := st.pattern.getD step []
    let activeNotes := bassActiveNotes scaleNotes stepPattern
    let adjustedTime := adjustTime time
    let rel : BassState × List BassEvent :=
      match st.currentNote with
      | some _ => ({ st with currentNote := none }, [BassEvent.release adjustedTime])
      | none => (st, [])
    match activeNotes with
    | [] => (rel.1, rel.2)
    | note :: _ =>
        ({ rel.1 with currentNote := some note },
         rel.2 ++ [BassEvent.attack note adjustedTime])

/-! ## Sample loading with retry (Sequencer.tsx loadTrackSample,
retry-based variant; the same retry configuration appears in getSampleUrl
of samples.ts) -/

/-- The loadProgress status written at the start of attempt n:

  status: currentAttempt > 1 ? 'retrying' : 'loading', attempt: currentAttempt
-/
inductive LoadStatus
  | loading (attempt : Nat)
  | retrying (attempt : Nat)
deriving DecidableEq, Repr

/-- Status selection for one attempt of loadTrackSample. -/
def attemptStatus (currentAttempt : Nat) : LoadStatus :=
  if currentAttempt > 1 then LoadStatus.retrying currentAttempt
  else LoadStatus.loading currentAttempt

/-- Result of the whole load: the promise resolves or rejects. -/
inductive LoadOutcome
  | resolved
  | rejected
deriving DecidableEq, Repr

/-- One run of an npm retry-package operation as used by loadTrackSample:
operation.attempt runs the callback with currentAttempt starting at 1; on
failure operation.retry(err) schedules another attempt while any of the
configured `retries` remain and returns false once they are exhausted, at
which point the callback rejects with operation.mainError().
`attemptResult n` says whether attempt n succeeds (each attempt performs
one fetch of the sample). The first component is the list of loadProgress
statuses written, one at the start of each attempt that runs. -/
def retryOperationRun (attemptResult : Nat → Bool) :
    Nat → Nat → List LoadStatus × LoadOutcome
  | retriesLeft, currentAttempt =>
    let status := attemptStatus currentAttempt
    if attemptResult currentAttempt then ([status], LoadOutcome.resolved)
    else
      match retriesLeft with
      | 0 => ([status], LoadOutcome.rejected)
      | n + 1 =>
        let rest := retryOperationRun attemptResult n (currentAttempt + 1)
        (status :: rest.1, rest.2)

/-- loadTrackSample (retry-based variant) configures
retry.operation with retries: 3, factor: 2, minTimeout: 1000,
maxTimeout: 5000, randomize: true — the initial attempt plus up to 3
retries. -/
def loadTrackSampleRun (attemptResult : Nat → Bool) :
    List LoadStatus × LoadOutcome :=
  retryOperationRun attemptResult 3 1

/-- Each attempt performs exactly one fetch of the sample, so the number
of fetch attempts equals the number of statuses recorded. -/
def fetchAttempts (run : List LoadStatus × LoadOutcome) : Nat := run.1.length

/-! ## Drum branch of the tick handler (Sequencer.tsx repeat) -/

/-- Player calls issued for a drum hit. -/
inductive PlayerEvent
  | start (time : ℚ)
  | stop (time : ℚ)
deriving DecidableEq, Repr

/-- Tone.Time for a 16th note in seconds at tempo bpm: a quarter note
lasts 60/bpm seconds and a 16th note a quarter of that. -/
def sixteenthNoteSeconds (bpm : ℚ) : ℚ := 60 / bpm / 4

/-- The drum branch of the repeat tick handler:

  if (track.pattern[currentStep]) {
    const player = players.current.get(track.id);
    if (player && player.loaded) {
      const stepDuration = Tone.Time('16n').toSeconds();
      if (track.gated) player.start(time).stop(time + stepDuration);
      else player.start(time);
    }
  }
-/
def drumStepEvents (track : Track) (playerLoaded : Bool) (step : Nat)
    (time bpm : ℚ) : List PlayerEvent :=
  if track.pattern.getD step false then
    if playerLoaded then
      let stepDuration := sixteenthNoteSeconds bpm
      if track.gated then
        [PlayerEvent.start time, PlayerEvent.stop (time + stepDuration)]
      else [PlayerEvent.start time]
    else []
  else []

/-! ## Delay-time derivation (Sequencer.tsx calculateDelayTime,
handleEffectChange delay case, and the bpm effect) -/

/-- A FeedbackDelay node's live parameters. -/
structure DelayNode where
  delayTime : ℚ
  wet : ℚ
deriving DecidableEq, Repr

/-- calculateDelayTime: secondsPerBeat = 60 / bpm; return secondsPerBeat / 2. -/
def calculateDelayTime (bpm : ℚ) : ℚ :=
  let secondsPerBeat := 60 / bpm
  secondsPerBeat / 2

/-- Per-chain view: the current tempo, the track's delay send, and the
chain's FeedbackDelay node. -/
structure DelayChainState where
  bpm : ℚ
  sendLevel : ℚ
  node : DelayNode
deriving DecidableEq, Repr

/-- handleEffectChange case 'delay':

  const baseDelayTime = calculateDelayTime(bpm);
  delay.delayTime.value = baseDelayTime * value;
  delay.wet.value = value;
-/
def handleDelayChange (st : DelayChainState) (value : ℚ) : DelayChainState :=
  { st with sendLevel := value,
            node := { delayTime := calculateDelayTime st.bpm * value,
                      wet := value } }

/-- The effect hook on [bpm]:

  delays.current.forEach(delay => delay.delayTime.rampTo(delayTime, 0.1));

where delayTime = calculateDelayTime(bpm) — the ramp target is NOT
multiplied by the track's delay send. -/
def handleBpmChange (st : DelayChainState) (newBpm : ℚ) : DelayChainState :=
  { st with bpm := newBpm,
            node := { st.node with delayTime := calculateDelayTime newBpm } }

/-- The same bpm effect over the whole delays registry. -/
def bpmEffectOnDelays (delays : List (String × DelayNode)) (bpm : ℚ) :
    List (String × DelayNode) :=
  delays.map fun e => (e.1, { e.2 with delayTime := calculateDelayTime bpm })

/-! ## Track removal (Sequencer.tsx removeTrack) -/

/-- Disposal calls issued by removeTrack, in issue order, plus a marker
for the moment the track leaves the tracks list. -/
inductive DisposeEvent
  | playerStop (id : String)
  | playerDispose (id : String)
  | filterDispose (id : String)
  | delayDispose (id : String)
  | reverbDispose (id : String)
  | trackRemoved (id : String)
deriving DecidableEq, Repr

/-- The engine's node registries and track list, together with the synths
owned by the BassTrack/PolyTrack child components. A JS Map is an
association list with unique keys; Map.delete removes the key, modelled by
filtering it out. componentSynths records, per bass/poly track id, whether
that component's synth is alive and connected toDestination — these synths
are created inside the child components and are never in the engine's four
registries, because loadTrackSample returns early for bass and poly
tracks; they are disposed only by the components' unmount cleanup. -/
structure EngineNodes where
  tracks : List Track
  players : List (String × Bool)
  filters : List String
  delays : List String
  reverbs : List String
  componentSynths : List (String × Bool)
deriving DecidableEq, Repr

/-- removeTrack(trackId): stop and dispose the player if present, dispose
the filter, delay and reverb nodes if present, delete each from its
registry, then filter the track out of the tracks list. The function holds
no reference to the child components' synths, so componentSynths is
untouched. -/
def removeTrack (st : EngineNodes) (trackId : String) :
    EngineNodes × List DisposeEvent :=
  let playerEvs :=
    if (st.players.find? fun e => e.1 == trackId).isSome then
      [DisposeEvent.playerStop trackId, DisposeEvent.playerDispose trackId]
    else []
  let filterEvs :=
    if st.filters.contains trackId then [DisposeEvent.filterDispose trackId]
    else []
  let delayEvs :=
    if st.delays.contains trackId then [DisposeEvent.delayDispose trackId]
    else []
  let reverbEvs :=
    if st.reverbs.contains trackId then [DisposeEvent.reverbDispose trackId]
    else []
  ({ st with
      players := st.players.filter fun e => e.1 != trackId
      filters := st.filters.filter fun x => x != trackId
      delays := st.delays.filter fun x => x != trackId
      reverbs := st.reverbs.filter fun x => x != trackId
      tracks := st.tracks.filter fun t => t.id != trackId },
   playerEvs ++ filterEvs ++ delayEvs ++ reverbEvs
     ++ [DisposeEvent.trackRemoved trackId])

/-! ## Transport start/stop (Sequencer.tsx startSequencer, stopSequencer) -/

/-- The transport-facing state: playing flag, step counter, the stored
repeat schedule id, each player's started flag, the bass synth's held note
and each poly synth's held notes. -/
structure TransportState where
  isPlaying : Bool
  currentStep : Nat
  repeatId : Option Nat
  playersStarted : List (String × Bool)
  bassNote : Option String
  polyNotes : List (String × List String)
deriving DecidableEq, Repr

/-- stopSequencer: setIsPlaying(false); Transport.stop(); clear the stored
repeat id; reset currentStep and its ref to 0; stop every started player;
bassRef.stop() releases the held bass note; every poly ref's stop()
releases its held notes. -/
def stopSequencer (st : TransportState) : TransportState :=
  { isPlaying := false
    currentStep := 0
    repeatId := none
    playersStarted := st.playersStarted.map fun e => (e.1, false)
    bassNote := none
    polyNotes := st.polyNotes.map fun e => (e.1, ([] : List String)) }

/-- Where startSequencer can fail: Tone.start() rejecting, one of the
track sample loads rejecting, or the schedule/transport calls throwing.
All are caught by the same catch block, which calls stopSequencer(). -/
inductive StartOutcome
  | toneStartFailed
  | loadFailed
  | scheduleFailed
  | success
deriving DecidableEq, Repr

/-- startSequencer: toggle semantics when already playing; otherwise run
the start sequence and on any error fall back to stopSequencer() in the
catch block. scheduleFailed models a throw after setIsPlaying(true) and
setCurrentStep(0) but before the repeat id is stored. -/
def startSequencer (outcome : StartOutcome) (newRepeatId : Nat)
    (st : TransportState) : TransportState :=
  if st.isPlaying then stopSequencer st
  else
    match outcome with
    | StartOutcome.toneStartFailed => stopSequencer st
    | StartOutcome.loadFailed => stopSequencer st
    | StartOutcome.scheduleFailed =>
        stopSequencer { st with isPlaying := true, currentStep := 0 }
    | StartOutcome.success =>
        { st with isPlaying := true, currentStep := 0,
                  repeatId := some newRepeatId }

/-! ## Concrete values for closed instances -/

/-- Concrete chord lookup used in closed instances (standing in for the
external tonal library on the default progression). -/
def demoChordNotes : String → List String
  | "Cmaj7" => ["C", "E", "G", "B"]
  | "Am7" => ["A", "C", "E", "G"]
  | "Fmaj7" => ["F", "A", "C", "E"]
  | "G7" => ["G", "B", "D", "F"]
  | _ => []

/-- The default PolyTrack params: octave 4 and the default 4-chord
progression of PolyTrack.tsx. -/
def demoPolyParams : PolyParams :=
  { octave := 4, chordProgression := ["Cmaj7", "Am7", "Fmaj7", "G7"] }

/-- A 16-step Poly state whose every row is gated (one active cell). -/
def demoPolyState : PolyState :=
  { synthExists := true, currentNotes := [], pattern := List.replicate 16 [true] }

/-- The default Bass track of initializeSequencer. -/
def demoBassTrack : Track :=
  { id := "bass", name := "Bass", type := TrackType.bass,
    pattern := List.replicate 16 false, samplePath := none, volume := 0,
    pan := 0, effects := defaultEffects, muted := false, soloed := false,
    gated := false }

/-- An engine in which the bass track's component synth is alive and no
node for it is in any engine registry (loadTrackSample returns early for
bass tracks, so none ever is). -/
def demoEngine : EngineNodes :=
  { tracks := [demoBassTrack], players := [], filters := [], delays := [],
    reverbs := [], componentSynths := [("bass", true)] }

/-- An engine with a drum track whose loaded player and full effect chain
are registered under its id "kick". -/
def demoDrumEngine : EngineNodes :=
  { tracks := [{ trackA with id := "kick", name := "Kick" }],
    players := [("kick", true)], filters := ["kick"], delays := ["kick"],
    reverbs := ["kick"], componentSynths := [] }

end EchoDelirium

namespace EchoDelirium

/-! ## Theorems -/

/-- C1: on every tick the set of tracks eligible to sound is: with no
soloed track in the session a track sounds iff its muted flag is false;
with at least one soloed track a track sounds iff it is soloed and not
itself muted (its own muted = true always excludes it). For
A(muted=false,soloed=false), B(muted=false,soloed=true),
C(muted=true,soloed=true) the active set is exactly the one this rule
gives, namely just B. -/
theorem solo_mute_precedence :
    (∀ (tracks : List Track) (t : Track),
      t ∈ activeTracks tracks ↔
        t ∈ tracks ∧ t.muted = false ∧
          ((∃ u ∈ tracks, u.soloed = true) → t.soloed = true))
    ∧ activeTracks [trackA, trackB, trackC] = [trackB] := by
  constructor
  · intro tracks t
    simp only [activeTracks, List.mem_filter]
    constructor
    · rintro ⟨hmem, hpred⟩
      refine ⟨hmem, ?_, ?_⟩
      · by_contra hmut
        simp only [Bool.not_eq_false] at hmut
        simp [hmut] at hpred
      · intro ⟨u, hu, husol⟩
        by_contra hsol
        simp only [Bool.not_eq_true] at hsol
        have hany : tracks.any (fun t => t.soloed) = true :=
          List.any_eq_true.mpr ⟨u, hu, husol⟩
        rcases hm : t.muted with _ | _ <;> simp [hm, hany, hsol] at hpred
    · rintro ⟨hmem, hmut, hsol⟩
      refine ⟨hmem, ?_⟩
      simp only [hmut, if_false]
      by_cases hany : tracks.any (fun t => t.soloed) = true
      · have := hsol (by
          obtain ⟨u, hu, husol⟩ := List.any_eq_true.mp hany
          exact ⟨u, hu, husol⟩)
        simp [hany, this]
      · simp only [Bool.not_eq_true] at hany
        simp [hany]
  · rfl

/-- C1 witness: the rule instantiated at the concrete three-track session
and track B. -/
theorem solo_mute_precedence_witness :
    trackB ∈ activeTracks [trackA, trackB, trackC] ↔
      trackB ∈ [trackA, trackB, trackC] ∧ trackB.muted = false ∧
        ((∃ u ∈ [trackA, trackB, trackC], u.soloed = true) → trackB.soloed = true) :=
  solo_mute_precedence.1 [trackA, trackB, trackC] trackB

/-- C2: after every step-count change, each track's pattern has length equal
to the new step count; cells below min(old length, new length) are
unchanged; newly added cells are false; and the track keeps its identity
(id, name, samplePath are carried over unchanged, the map recreates the
record but never the registered player). The last conjunct states the same
resize facts for the BassTrack variant, whose new rows are all-false rows
over the scale degrees. -/
theorem pattern_resize_invariant :
    (∀ (p : List Bool) (steps : Nat), (resizePattern p steps).length = steps)
    ∧ (∀ (p : List Bool) (steps i : Nat), i < p.length → i < steps →
        (resizePattern p steps).get? i = p.get? i)
    ∧ (∀ (p : List Bool) (steps i : Nat), p.length ≤ i → i < steps →
        (resizePattern p steps).get? i = some false)
    ∧ (∀ (steps : Nat) (tracks : List Track),
        (handleStepAmountChange steps tracks).map Track.id = tracks.map Track.id
        ∧ (handleStepAmountChange steps tracks).map Track.name = tracks.map Track.name
        ∧ (handleStepAmountChange steps tracks).map Track.samplePath
            = tracks.map Track.samplePath
        ∧ ∀ t ∈ handleStepAmountChange steps tracks, t.pattern.length = steps)
    ∧ (∀ (p : List (List Bool)) (steps scaleLen : Nat),
        (bassResizePattern p steps scaleLen).length = steps
        ∧ (∀ i, i < p.length → i < steps →
            (bassResizePattern p steps scaleLen).get? i = some (p.getD i []))
        ∧ ∀ i, p.length ≤ i → i < steps →
            (bassResizePattern p steps scaleLen).get? i
              = some (List.replicate scaleLen false)) := by
  refine ⟨?_, ?_, ?_, ?_, ?_⟩
  · intro p steps
    by_cases h : p.length > steps <;> simp [resizePattern, h] <;> omega
  · intro p steps i hi hs
    by_cases h : p.length > steps
    · simp only [resizePattern, h, if_true]
      exact List.get?_take hs
    · simp only [resizePattern, h, if_false]
      exact List.get?_append hi
  · intro p steps i hpi hs
    have h : ¬ p.length > steps := by omega
    simp only [resizePattern, h, if_false]
    rw [List.get?_append_right hpi]
    simp [List.get?_eq_getElem?, List.getElem?_replicate]
    omega
  · intro steps tracks
    refine ⟨?_, ?_, ?_, ?_⟩
    · simp [handleStepAmountChange, Function.comp]
    · simp [handleStepAmountChange, Function.comp]
    · simp [handleStepAmountChange, Function.comp]
    · intro t ht
      simp only [handleStepAmountChange, List.mem_map] at ht
      obtain ⟨u, _, hu⟩ := ht
      subst hu
      by_cases h : u.pattern.length > steps <;> simp [resizePattern, h] <;> omega
  · intro p steps scaleLen
    refine ⟨by simp [bassResizePattern], ?_, ?_⟩
    · intro i hi hs
      simp [bassResizePattern, List.get?_eq_getElem?, List.getElem?_map,
        List.getElem?_range, hi, hs]
    · intro i hpi hs
      have h : ¬ i < p.length := by omega
      simp [bassResizePattern, List.get?_eq_getElem?, List.getElem?_map,
        List.getElem?_range, h, hs]

/-- C2 witness: resizing a 2-cell pattern to 4 steps keeps cell 0, pads
cell 3 with false, and yields length 4. -/
theorem pattern_resize_invariant_witness :
    (resizePattern [true, false] 4).length = 4
    ∧ (resizePattern [true, false] 4).get? 0 = [true, false].get? 0
    ∧ (resizePattern [true, false] 4).get? 3 = some false :=
  ⟨pattern_resize_invariant.1 [true, false] 4,
   pattern_resize_invariant.2.1 [true, false] 4 0 (by decide) (by decide),
   pattern_resize_invariant.2.2.1 [true, false] 4 3 (by decide) (by decide)⟩

/-- C3: for a Poly track the chord triggered at step s is always
`polyChordFor`, i.e. the progression entry at index floor(s/4) mod
progression length — an expression that does not mention the pattern at
all, so the chord identity is independent of which cells are marked. A
gated row (some cell active) triggers the full chord in a single attack
call after releasing the held notes; an ungated row produces no attack.
The closed conjunct checks that with 16 steps and the default 4-chord
progression, steps 0, 4, 8, 12 attack the chords at indices 0, 1, 2, 3. -/
theorem poly_chord_identity :
    (∀ (chordNotes : String → List String) (params : PolyParams)
       (st : PolyState) (step : Nat) (time : Option ℚ),
      st.synthExists = true → step < st.pattern.length →
      (st.pattern.getD step []).any id = true →
      (polyPlayStep chordNotes params st step time).2
        = (if st.currentNotes.isEmpty then []
           else [PolyEvent.release st.currentNotes (adjustTime time)])
          ++ [PolyEvent.attack (polyChordFor chordNotes params step) (adjustTime time)]
      ∧ (polyPlayStep chordNotes params st step time).1.currentNotes
          = polyChordFor chordNotes params step)
    ∧ (∀ (chordNotes : String → List String) (params : PolyParams)
         (st : PolyState) (step : Nat) (time : Option ℚ),
        (st.pattern.getD step []).any id = false →
        ∀ notes t, PolyEvent.attack notes t ∉
          (polyPlayStep chordNotes params st step time).2)
    ∧ ((polyPlayStep demoChordNotes demoPolyParams demoPolyState 0 (some 1)).2
        = [PolyEvent.attack ["C4", "E4", "G4", "B4"] (some (1 + 1/1000))]
      ∧ (polyPlayStep demoChordNotes demoPolyParams demoPolyState 4 (some 1)).2
        = [PolyEvent.attack ["A4", "C4", "E4", "G4"] (some (1 + 1/1000))]
      ∧ (polyPlayStep demoChordNotes demoPolyParams demoPolyState 8 (some 1)).2
        = [PolyEvent.attack ["F4", "A4", "C4", "E4"] (some (1 + 1/1000))]
      ∧ (polyPlayStep demoChordNotes demoPolyParams demoPolyState 12 (some 1)).2
        = [PolyEvent.attack ["G4", "B4", "D4", "F4"] (some (1 + 1/1000))]) := by
  refine ⟨?_, ?_, by rfl, by rfl, by rfl, by rfl⟩
  · intro chordNotes params st step time hs hlt hany
    have hguard : ¬ (st.synthExists = false ∨ st.pattern.length ≤ step) := by
      push_neg
      exact ⟨by simp [hs], by omega⟩
    simp only [List.any_eq_true, id_eq, List.getD_eq_getElem?_getD] at hany
    rcases hne : st.currentNotes.isEmpty with _ | _ <;>
      simp [polyPlayStep, hguard, hne, hany]
  · intro chordNotes params st step time hany notes t
    simp only [List.any_eq_false, id_eq, List.getD_eq_getElem?_getD] at hany
    have hnm : true ∉ st.pattern[step]?.getD [] := fun h => hany true h rfl
    by_cases hguard : st.synthExists = false ∨ st.pattern.length ≤ step
    · simp [polyPlayStep, hguard]
    · rcases hne : st.currentNotes.isEmpty with _ | _ <;>
        simp [polyPlayStep, hguard, hne, hnm]

/-- C3 witness: the gated-row branch instantiated at the default
progression and step 0 with every hypothesis discharged concretely. -/
theorem poly_chord_identity_witness :
    demoPolyState.synthExists = true
    ∧ 0 < demoPolyState.pattern.length
    ∧ (demoPolyState.pattern.getD 0 []).any id = true
    ∧ ((polyPlayStep demoChordNotes demoPolyParams demoPolyState 0 (some 1)).2
        = (if demoPolyState.currentNotes.isEmpty then []
           else [PolyEvent.release demoPolyState.currentNotes (adjustTime (some 1))])
          ++ [PolyEvent.attack (polyChordFor demoChordNotes demoPolyParams 0)
               (adjustTime (some 1))]
      ∧ (polyPlayStep demoChordNotes demoPolyParams demoPolyState 0 (some 1)).1.currentNotes
          = polyChordFor demoChordNotes demoPolyParams 0) :=
  ⟨by decide, by decide, by decide,
   poly_chord_identity.1 demoChordNotes demoPolyParams demoPolyState 0 (some 1)
     (by decide) (by decide) (by decide)⟩

/-- C4 counterexample: scale ["C2", "D2"], two consecutive active steps.
Step 0 at tick time 1 attacks "C2"; step 1 at tick time 2 issues the
release of "C2" and the attack of "D2" both scheduled at the same time
2 + 1/1000 (tick time plus the 1ms offset), so the note-off is NOT
scheduled strictly before the note-on — the strictly-before part of the
claim is false. -/
theorem bass_noteoff_not_strictly_before :
    (bassPlayStep ["C2", "D2"]
        { synthExists := true, currentNote := none,
          pattern := [[true, false], [false, true]] } 0 (some 1)).1.currentNote
      = some "C2"
    ∧ (bassPlayStep ["C2", "D2"]
        (bassPlayStep ["C2", "D2"]
          { synthExists := true, currentNote := none,
            pattern := [[true, false], [false, true]] } 0 (some 1)).1 1 (some 2)).2
      = [BassEvent.release (some (2 + 1/1000)),
         BassEvent.attack "D2" (some (2 + 1/1000))]
    ∧ ¬ ((2 + 1/1000 : ℚ) < 2 + 1/1000) :=
  ⟨by decide, by rfl, by norm_num⟩

/-- C4 (amended): at an active step the first (lowest-indexed) active
degree's note is attacked after the release of any held note; at an
inactive step the held note is released and nothing is attacked; at most
one note is ever sounding; and for two consecutive active steps, step N+1
issues the note-off of step N's note before its own note-on, both
scheduled at the same adjusted time (tick time + 1ms). -/
theorem bass_monophonic_exclusivity :
    (∀ (scaleNotes : List String) (st : BassState) (step : Nat)
       (time : Option ℚ) (note : String) (rest : List String),
      st.synthExists = true → step < st.pattern.length →
      bassActiveNotes scaleNotes (st.pattern.getD step []) = note :: rest →
      (bassPlayStep scaleNotes st step time).2
        = (match st.currentNote with
           | some _ => [BassEvent.release (adjustTime time)]
           | none => []) ++ [BassEvent.attack note (adjustTime time)]
      ∧ (bassPlayStep scaleNotes st step time).1.currentNote = some note)
    ∧ (∀ (scaleNotes : List String) (st : BassState) (step : Nat)
         (time : Option ℚ),
        st.synthExists = true → step < st.pattern.length →
        bassActiveNotes scaleNotes (st.pattern.getD step []) = [] →
        (bassPlayStep scaleNotes st step time).2
          = (match st.currentNote with
             | some _ => [BassEvent.release (adjustTime time)]
             | none => [])
        ∧ (∀ n t, BassEvent.attack n t ∉ (bassPlayStep scaleNotes st step time).2)
        ∧ (bassPlayStep scaleNotes st step time).1.currentNote = none)
    ∧ (∀ (scaleNotes : List String) (st : BassState) (step : Nat)
         (time : Option ℚ),
        ((bassPlayStep scaleNotes st step time).1.currentNote.toList).length ≤ 1)
    ∧ (∀ (scaleNotes : List String) (st : BassState) (s : Nat) (t1 t2 : ℚ)
         (n1 : String) (r1 : List String) (n2 : String) (r2 : List String),
        st.synthExists = true → s + 1 < st.pattern.length →
        st.currentNote = none → 0 < t1 → 0 < t2 →
        bassActiveNotes scaleNotes (st.pattern.getD s []) = n1 :: r1 →
        bassActiveNotes scaleNotes (st.pattern.getD (s + 1) []) = n2 :: r2 →
        (bassPlayStep scaleNotes st s (some t1)).2
          = [BassEvent.attack n1 (some (t1 + 1/1000))]
        ∧ (bassPlayStep scaleNotes
             (bassPlayStep scaleNotes st s (some t1)).1 (s + 1) (some t2)).2
          = [BassEvent.release (some (t2 + 1/1000)),
             BassEvent.attack n2 (some (t2 + 1/1000))]) := by
  have hstep : ∀ (scaleNotes : List String) (st : BassState) (step : Nat)
      (time : Option ℚ) (note : String) (rest : List String),
      st.synthExists = true → step < st.pattern.length →
      bassActiveNotes scaleNotes (st.pattern.getD step []) = note :: rest →
      (bassPlayStep scaleNotes st step time).2
        = (match st.currentNote with
           | some _ => [BassEvent.release (adjustTime time)]
           | none => []) ++ [BassEvent.attack note (adjustTime time)]
      ∧ (bassPlayStep scaleNotes st step time).1.currentNote = some note
      ∧ (bassPlayStep scaleNotes st step time).1.pattern = st.pattern
      ∧ (bassPlayStep scaleNotes st step time).1.synthExists = st.synthExists := by
    intro scaleNotes st step time note rest hs hlt hact
    have hguard : ¬ (st.synthExists = false ∨ st.pattern.length ≤ step) := by
      push_neg
      exact ⟨by simp [hs], by omega⟩
    simp only [List.getD_eq_getElem?_getD] at hact
    rcases hcur : st.currentNote with _ | n <;>
      simp [bassPlayStep, hguard, hcur, hact]
  refine ⟨fun a b c d e f h1 h2 h3 => ⟨(hstep a b c d e f h1 h2 h3).1,
            (hstep a b c d e f h1 h2 h3).2.1⟩, ?_, ?_, ?_⟩
  · intro scaleNotes st step time hs hlt hact
    have hguard : ¬ (st.synthExists = false ∨ st.pattern.length ≤ step) := by
      push_neg
      exact ⟨by simp [hs], by omega⟩
    simp only [List.getD_eq_getElem?_getD] at hact
    rcases hcur : st.currentNote with _ | n <;>
      simp [bassPlayStep, hguard, hcur, hact]
  · intro scaleNotes st step time
    rcases h : (bassPlayStep scaleNotes st step time).1.currentNote <;> simp [h]
  · intro scaleNotes st s t1 t2 n1 r1 n2 r2 hs hlt hcur ht1 ht2 hact1 hact2
    have h1 := hstep scaleNotes st s (some t1) n1 r1 hs (by omega) hact1
    have hadj1 : adjustTime (some t1) = some (t1 + 1/1000) := by
      simp [adjustTime, ne_of_gt ht1]
    have hev1 : (bassPlayStep scaleNotes st s (some t1)).2
        = [BassEvent.attack n1 (some (t1 + 1/1000))] := by
      rw [h1.1, hcur, hadj1]
      rfl
    refine ⟨hev1, ?_⟩
    have h2 := hstep scaleNotes (bassPlayStep scaleNotes st s (some t1)).1
      (s + 1) (some t2) n2 r2 (by rw [h1.2.2.2, hs]) (by rw [h1.2.2.1]; omega)
      (by rw [h1.2.2.1]; exact hact2)
    have hadj2 : adjustTime (some t2) = some (t2 + 1/1000) := by
      simp [adjustTime, ne_of_gt ht2]
    rw [h2.1, h1.2.1, hadj2]
    rfl

/-- C4 witness: the amended statement instantiated at the concrete
two-step run of the counterexample, every hypothesis discharged. -/
theorem bass_monophonic_exclusivity_witness :
    (0 : ℚ) < 1 ∧ (0 : ℚ) < 2
    ∧ ((bassPlayStep ["C2", "D2"]
          { synthExists := true, currentNote := none,
            pattern := [[true, false], [false, true]] } 0 (some 1)).2
        = [BassEvent.attack "C2" (some (1 + 1/1000))]
      ∧ (bassPlayStep ["C2", "D2"]
          (bassPlayStep ["C2", "D2"]
            { synthExists := true, currentNote := none,
              pattern := [[true, false], [false, true]] } 0 (some 1)).1 1 (some 2)).2
        = [BassEvent.release (some (2 + 1/1000)),
           BassEvent.attack "D2" (some (2 + 1/1000))]) :=
  ⟨by norm_num, by norm_num,
   bass_monophonic_exclusivity.2.2.2 ["C2", "D2"]
     { synthExists := true, currentNote := none,
       pattern := [[true, false], [false, true]] } 0 1 2 "C2" [] "D2" []
     (by decide) (by decide) (by decide) (by norm_num) (by norm_num)
     (by decide) (by decide)⟩

/-- C5 counterexample: for a permanently failing source the retry-based
loadTrackSample performs 4 fetch attempts (the initial attempt plus the 3
configured retries), not 3 as claimed. -/
theorem retry_bound_counterexample :
    fetchAttempts (loadTrackSampleRun fun _ => false) = 4
    ∧ ¬ fetchAttempts (loadTrackSampleRun fun _ => false) = 3 := by
  decide

/-- C5 (amended): for a permanently failing source the loader makes
exactly 4 fetch attempts, records loadProgress Loading(1), Retrying(2),
Retrying(3), Retrying(4) — each written before its attempt runs — and
after the last attempt the load promise rejects with the operation's main
error. -/
theorem retry_bound_amended :
    ∀ attemptResult : Nat → Bool, (∀ n, attemptResult n = false) →
      loadTrackSampleRun attemptResult
        = ([LoadStatus.loading 1, LoadStatus.retrying 2, LoadStatus.retrying 3,
            LoadStatus.retrying 4], LoadOutcome.rejected)
      ∧ fetchAttempts (loadTrackSampleRun attemptResult) = 4 := by
  intro attemptResult h
  simp [loadTrackSampleRun, retryOperationRun, attemptStatus, h, fetchAttempts]

/-- C5 witness: the amended statement at the always-failing source. -/
theorem retry_bound_amended_witness :
    (∀ n, (fun _ : Nat => false) n = false)
    ∧ loadTrackSampleRun (fun _ => false)
        = ([LoadStatus.loading 1, LoadStatus.retrying 2, LoadStatus.retrying 3,
            LoadStatus.retrying 4], LoadOutcome.rejected)
    ∧ fetchAttempts (loadTrackSampleRun fun _ => false) = 4 :=
  ⟨fun _ => rfl,
   (retry_bound_amended (fun _ => false) fun _ => rfl).1,
   (retry_bound_amended (fun _ => false) fun _ => rfl).2⟩

/-- C6: for a drum track with an active pattern cell and a loaded player,
a gated hit at scheduled time T issues a stop at exactly T plus one
16th-note duration — at 120 BPM exactly T + 1/8 second — while an ungated
hit issues no stop at all. -/
theorem drum_gate_truncation :
    (∀ (track : Track) (step : Nat) (time bpm : ℚ),
      track.pattern.getD step false = true → track.gated = true →
      drumStepEvents track true step time bpm
        = [PlayerEvent.start time,
           PlayerEvent.stop (time + sixteenthNoteSeconds bpm)])
    ∧ (∀ (track : Track) (step : Nat) (time bpm : ℚ),
      track.pattern.getD step false = true → track.gated = false →
      drumStepEvents track true step time bpm = [PlayerEvent.start time]
      ∧ ∀ t, PlayerEvent.stop t ∉ drumStepEvents track true step time bpm)
    ∧ sixteenthNoteSeconds 120 = 1/8 := by
  refine ⟨?_, ?_, by norm_num [sixteenthNoteSeconds]⟩
  · intro track step time bpm hcell hgate
    simp only [List.getD_eq_getElem?_getD] at hcell
    simp [drumStepEvents, hcell, hgate]
  · intro track step time bpm hcell hgate
    simp only [List.getD_eq_getElem?_getD] at hcell
    simp [drumStepEvents, hcell, hgate]

/-- C6 witness: a gated kick with cell 0 active, at T = 1 and 120 BPM. -/
theorem drum_gate_truncation_witness :
    ({ trackA with pattern := [true], gated := true } : Track).pattern.getD 0 false = true
    ∧ ({ trackA with pattern := [true], gated := true } : Track).gated = true
    ∧ drumStepEvents { trackA with pattern := [true], gated := true } true 0 1 120
        = [PlayerEvent.start 1,
           PlayerEvent.stop (1 + sixteenthNoteSeconds 120)] :=
  ⟨by decide, by decide,
   drum_gate_truncation.1 { trackA with pattern := [true], gated := true }
     0 1 120 (by decide) (by decide)⟩

/-- C7 counterexample: start from the chain loadTrackSample builds at
120 BPM with delay send 0, turn the delay knob to 1/2 (delayTime becomes
(60/120)/2 * 1/2 = 1/8, matching the claimed formula), then change the BPM
to 60: the bpm effect ramps delayTime to (60/60)/2 = 1/2, but the claimed
formula gives (60/60)/2 * 1/2 = 1/4 — the claim fails after a BPM change
because the code does not rescale by the track's send level. -/
theorem delay_time_counterexample :
    (handleBpmChange (handleDelayChange
        { bpm := 120, sendLevel := 0,
          node := { delayTime := calculateDelayTime 120 * 0, wet := 0 } }
        (1/2)) 60).sendLevel = 1/2
    ∧ (handleBpmChange (handleDelayChange
        { bpm := 120, sendLevel := 0,
          node := { delayTime := calculateDelayTime 120 * 0, wet := 0 } }
        (1/2)) 60).node.delayTime = 1/2
    ∧ calculateDelayTime 60 * (1/2) = 1/4
    ∧ ((1 : ℚ)/2) ≠ 1/4 := by
  norm_num [handleBpmChange, handleDelayChange, calculateDelayTime]

/-- C7 (amended): a delay-knob change sets the chain's delay time to
calculateDelayTime(bpm) * sendLevel (and its wet level to sendLevel), so
the claimed formula holds after every knob change; a BPM change instead
ramps every active chain's delay time to calculateDelayTime(newBpm),
unscaled by the track's send level. -/
theorem delay_time_derivation :
    (∀ (st : DelayChainState) (value : ℚ),
      (handleDelayChange st value).node.delayTime
        = calculateDelayTime st.bpm * value
      ∧ (handleDelayChange st value).node.wet = value
      ∧ (handleDelayChange st value).sendLevel = value)
    ∧ (∀ (st : DelayChainState) (newBpm : ℚ),
      (handleBpmChange st newBpm).node.delayTime = calculateDelayTime newBpm
      ∧ (handleBpmChange st newBpm).sendLevel = st.sendLevel)
    ∧ (∀ (delays : List (String × DelayNode)) (bpm : ℚ)
         (e : String × DelayNode),
      e ∈ bpmEffectOnDelays delays bpm →
        e.2.delayTime = calculateDelayTime bpm) := by
  refine ⟨fun st value => ⟨rfl, rfl, rfl⟩, fun st newBpm => ⟨rfl, rfl⟩, ?_⟩
  intro delays bpm e he
  simp only [bpmEffectOnDelays, List.mem_map] at he
  obtain ⟨u, _, hu⟩ := he
  subst hu
  rfl

/-- C7 witness: the registry-wide bpm effect at a one-chain registry, the
membership hypothesis discharged concretely. -/
theorem delay_time_derivation_witness :
    ("kick", ({ delayTime := calculateDelayTime 120, wet := 0 } : DelayNode))
        ∈ bpmEffectOnDelays [("kick", { delayTime := 0, wet := 0 })] 120
    ∧ (("kick", ({ delayTime := calculateDelayTime 120, wet := 0 } : DelayNode)).2.delayTime
        = calculateDelayTime 120) :=
  ⟨by simp [bpmEffectOnDelays],
   delay_time_derivation.2.2 [("kick", { delayTime := 0, wet := 0 })] 120
     ("kick", { delayTime := calculateDelayTime 120, wet := 0 })
     (by simp [bpmEffectOnDelays])⟩

/-- C8 counterexample: the engine holds a bass track whose component
synth is alive and connected; removeTrack("bass") removes the track from
the list but leaves the synth alive — the sound source of a Bass (or
Poly) track is not disposed by removeTrack, contradicting the claim for
every track kind. -/
theorem removal_counterexample :
    (removeTrack demoEngine "bass").1.componentSynths = [("bass", true)]
    ∧ ((removeTrack demoEngine "bass").1.tracks.all fun t => t.id != "bass")
        = true := by
  decide

/-- C8 (amended): removeTrack(id) synchronously stops and disposes every
node registered under id in the engine's players/filters/delays/reverbs
registries — for a drum track that is its sound source and its whole
effect chain — strictly before the track-list removal, and afterwards zero
registered nodes for id remain; the Bass and Poly synths are owned by the
child components, are never in those registries, and are untouched by
removeTrack (they are disposed only by component unmount cleanup). -/
theorem removal_disposes_registered_nodes :
    ∀ (st : EngineNodes) (trackId : String),
      ((removeTrack st trackId).1.players.all fun e => e.1 != trackId) = true
      ∧ ((removeTrack st trackId).1.filters.all fun x => x != trackId) = true
      ∧ ((removeTrack st trackId).1.delays.all fun x => x != trackId) = true
      ∧ ((removeTrack st trackId).1.reverbs.all fun x => x != trackId) = true
      ∧ ((removeTrack st trackId).1.tracks.all fun t => t.id != trackId) = true
      ∧ (removeTrack st trackId).1.componentSynths = st.componentSynths
      ∧ ∃ evs, (removeTrack st trackId).2
          = evs ++ [DisposeEvent.trackRemoved trackId]
        ∧ DisposeEvent.trackRemoved trackId ∉ evs
        ∧ ((st.players.find? fun e => e.1 == trackId).isSome = true →
            DisposeEvent.playerStop trackId ∈ evs
            ∧ DisposeEvent.playerDispose trackId ∈ evs)
        ∧ (st.filters.contains trackId = true →
            DisposeEvent.filterDispose trackId ∈ evs)
        ∧ (st.delays.contains trackId = true →
            DisposeEvent.delayDispose trackId ∈ evs)
        ∧ (st.reverbs.contains trackId = true →
            DisposeEvent.reverbDispose trackId ∈ evs) := by
  intro st trackId
  refine ⟨?_, ?_, ?_, ?_, ?_, rfl, ?_⟩
  · simp [removeTrack, List.all_eq_true, List.mem_filter]
  · simp [removeTrack, List.all_eq_true, List.mem_filter]
  · simp [removeTrack, List.all_eq_true, List.mem_filter]
  · simp [removeTrack, List.all_eq_true, List.mem_filter]
  · simp [removeTrack, List.all_eq_true, List.mem_filter]
  · refine ⟨_, rfl, ?_, ?_, ?_, ?_, ?_⟩ <;>
    · by_cases h1 : (st.players.find? fun e => e.1 == trackId).isSome <;>
        by_cases h2 : st.filters.contains trackId <;>
        by_cases h3 : st.delays.contains trackId <;>
        by_cases h4 : st.reverbs.contains trackId <;>
        simp [h1, h2, h3, h4]

/-- C8 witness: the amended statement at an engine whose drum track
"kick" has a registered player, filter, delay and reverb: every dispose
event is issued before the track-list removal. -/
theorem removal_disposes_registered_nodes_witness :
    DisposeEvent.playerStop "kick" ∈ (removeTrack demoDrumEngine "kick").2
    ∧ DisposeEvent.playerDispose "kick" ∈ (removeTrack demoDrumEngine "kick").2
    ∧ DisposeEvent.filterDispose "kick" ∈ (removeTrack demoDrumEngine "kick").2
    ∧ DisposeEvent.delayDispose "kick" ∈ (removeTrack demoDrumEngine "kick").2
    ∧ DisposeEvent.reverbDispose "kick" ∈ (removeTrack demoDrumEngine "kick").2
    ∧ ((removeTrack demoDrumEngine "kick").1.players.all
        fun e => e.1 != "kick") = true := by
  obtain ⟨hp, -, -, -, -, -, evs, heq, -, hplayer, hfilter, hdelay, hreverb⟩ :=
    removal_disposes_registered_nodes demoDrumEngine "kick"
  refine ⟨?_, ?_, ?_, ?_, ?_, hp⟩ <;> rw [heq]
  · exact List.mem_append_left _ ((hplayer (by decide)).1)
  · exact List.mem_append_left _ ((hplayer (by decide)).2)
  · exact List.mem_append_left _ (hfilter (by decide))
  · exact List.mem_append_left _ (hdelay (by decide))
  · exact List.mem_append_left _ (hreverb (by decide))

/-- C9: whenever starting playback fails — the audio context failing to
resume, a required sample load rejecting, or the scheduling calls throwing
after the playing flag was already set — the engine ends fully stopped:
isPlaying false, currentStep 0, the repeat schedule cleared, every player
stopped, the bass note and all poly notes released. -/
theorem start_failure_leaves_stopped :
    ∀ (outcome : StartOutcome) (newRepeatId : Nat) (st : TransportState),
      st.isPlaying = false → outcome ≠ StartOutcome.success →
      (startSequencer outcome newRepeatId st).isPlaying = false
      ∧ (startSequencer outcome newRepeatId st).currentStep = 0
      ∧ (startSequencer outcome newRepeatId st).repeatId = none
      ∧ (∀ e ∈ (startSequencer outcome newRepeatId st).playersStarted,
          e.2 = false)
      ∧ (startSequencer outcome newRepeatId st).bassNote = none
      ∧ ∀ e ∈ (startSequencer outcome newRepeatId st).polyNotes,
          e.2 = ([] : List String) := by
  intro outcome newRepeatId st hplay hfail
  cases outcome
  case success => exact absurd rfl hfail
  all_goals
    refine ⟨by simp [startSequencer, stopSequencer, hplay],
      by simp [startSequencer, stopSequencer, hplay],
      by simp [startSequencer, stopSequencer, hplay], ?_,
      by simp [startSequencer, stopSequencer, hplay], ?_⟩ <;>
    · intro e he
      simp only [startSequencer, stopSequencer, hplay, Bool.false_eq_true,
        if_false, List.mem_map] at he
      obtain ⟨u, _, hu⟩ := he
      simp [← hu]

/-- C9 witness: a load failure from a playing=false state with a started
player and held bass and poly notes ends fully stopped. -/
theorem start_failure_leaves_stopped_witness :
    ({ isPlaying := false, currentStep := 3, repeatId := some 7,
       playersStarted := [("kick", true)], bassNote := some "C2",
       polyNotes := [("p1", ["C4", "E4"])] } : TransportState).isPlaying = false
    ∧ StartOutcome.loadFailed ≠ StartOutcome.success
    ∧ ((startSequencer StartOutcome.loadFailed 9
        { isPlaying := false, currentStep := 3, repeatId := some 7,
          playersStarted := [("kick", true)], bassNote := some "C2",
          polyNotes := [("p1", ["C4", "E4"])] }).isPlaying = false
      ∧ (startSequencer StartOutcome.loadFailed 9
          { isPlaying := false, currentStep := 3, repeatId := some 7,
            playersStarted := [("kick", true)], bassNote := some "C2",
            polyNotes := [("p1", ["C4", "E4"])] }).currentStep = 0
      ∧ (startSequencer StartOutcome.loadFailed 9
          { isPlaying := false, currentStep := 3, repeatId := some 7,
            playersStarted := [("kick", true)], bassNote := some "C2",
            polyNotes := [("p1", ["C4", "E4"])] }).repeatId = none
      ∧ (∀ e ∈ (startSequencer StartOutcome.loadFailed 9
          { isPlaying := false, currentStep := 3, repeatId := some 7,
            playersStarted := [("kick", true)], bassNote := some "C2",
            polyNotes := [("p1", ["C4", "E4"])] }).playersStarted, e.2 = false)
      ∧ (startSequencer StartOutcome.loadFailed 9
          { isPlaying := false, currentStep := 3, repeatId := some 7,
            playersStarted := [("kick", true)], bassNote := some "C2",
            polyNotes := [("p1", ["C4", "E4"])] }).bassNote = none
      ∧ ∀ e ∈ (startSequencer StartOutcome.loadFailed 9
          { isPlaying := false, currentStep := 3, repeatId := some 7,
            playersStarted := [("kick", true)], bassNote := some "C2",
            polyNotes := [("p1", ["C4", "E4"])] }).polyNotes,
          e.2 = ([] : List String)) :=
  ⟨rfl, by decide,
   start_failure_leaves_stopped StartOutcome.loadFailed 9
     { isPlaying := false, currentStep := 3, repeatId := some 7,
       playersStarted := [("kick", true)], bassNote := some "C2",
       polyNotes := [("p1", ["C4", "E4"])] } rfl (by decide)⟩

/-- C10: for Bass and Poly tracks, playStep with a step index at or beyond
the component-local pattern length — possible because the components keep
a local step amount that can differ from the engine's — is a silent no-op:
the state (including any currently sounding note) is returned unchanged
and no synth call is issued; the same holds before the synth is created. -/
theorem playstep_out_of_range_noop :
    (∀ (scaleNotes : List String) (st : BassState) (step : Nat)
       (time : Option ℚ),
      st.pattern.length ≤ step ∨ st.synthExists = false →
      bassPlayStep scaleNotes st step time = (st, []))
    ∧ (∀ (chordNotes : String → List String) (params : PolyParams)
         (st : PolyState) (step : Nat) (time : Option ℚ),
      st.pattern.length ≤ step ∨ st.synthExists = false →
      polyPlayStep chordNotes params st step time = (st, [])) := by
  constructor
  · intro scaleNotes st step time h
    have hguard : st.synthExists = false ∨ st.pattern.length ≤ step := h.symm
    simp [bassPlayStep, hguard]
  · intro chordNotes params st step time h
    have hguard : st.synthExists = false ∨ st.pattern.length ≤ step := h.symm
    simp [polyPlayStep, hguard]

/-- C10 witness: a bass state holding note "C2" with a 2-row pattern; a
playStep at step 5 returns the state unchanged (the note keeps sounding)
and issues no synth call. -/
theorem playstep_out_of_range_noop_witness :
    (([[true, false], [false, true]] : List (List Bool)).length ≤ 5
      ∨ (true : Bool) = false)
    ∧ bassPlayStep ["C2", "D2"]
        { synthExists := true, currentNote := some "C2",
          pattern := [[true, false], [false, true]] } 5 (some 1)
      = ({ synthExists := true, currentNote := some "C2",
           pattern := [[true, false], [false, true]] }, []) :=
  ⟨Or.inl (by decide),
   playstep_out_of_range_noop.1 ["C2", "D2"]
     { synthExists := true, currentNote := some "C2",
       pattern := [[true, false], [false, true]] } 5 (some 1)
     (Or.inl (by decide))⟩

end EchoDelirium
